import Mathlib

/-!
Shallow embedding of the sandbox lifecycle client in
derrickchwong/remote-agent-extension.

The repository contains three near-duplicate MCP-server implementations:
 - V1 : src/remote-sandbox.ts        (proxy HTTP, username profile, 30 s wait)
 - V2 : src/unnamed/part_002         (proxy HTTP, apiKey profile, 12 x 5 s poll)
 - V3 : src/unnamed/part_003         (direct kubectl invocation)

Pure response-handling logic is translated into executable Lean functions;
the effectful parts (fetch, sleep, child-process exec) are modelled by
passing each round trip's outcome in explicitly, and by recording the
requests and sleeps an operation performs as a trace.
-/

/-- Parsed JSON error body: optional `error` and `message` fields, plus its
raw serialized text (`JSON.stringify(errorData)` uses the latter). -/
structure ErrorBody where
  error : Option String
  message : Option String
  raw : String
  deriving Repr, DecidableEq

/-- Outcome of one `fetch` round trip: parsed 2xx body, a non-2xx response
with its status and parsed error body, or a thrown transport error. -/
inductive FetchResult (α : Type) where
  | ok (body : α)
  | notOk (status : Nat) (err : ErrorBody)
  | thrown (msg : String)
  deriving Repr, DecidableEq

/-- The uniform tool result: the handlers either return a success payload or
catch the thrown error and return the `{success: false, error}` shape. -/
inductive ToolResult (α : Type) where
  | ok (payload : α)
  | failure (error : String)
  deriving Repr, DecidableEq

/-- JS truthiness of an optional string (`undefined` and `""` are falsy). -/
def jsTruthyStr : Option String → Bool
  | none => false
  | some s => !(s == "")

/-- JS `a || d` for a string expression `a` and string default `d`. -/
def jsOrStr : Option String → String → String
  | none, d => d
  | some s, d => if s == "" then d else s

/-- JS `a || b` where both operands are optional strings. -/
def jsTruthyOr : Option String → Option String → Option String
  | none, b => b
  | some s, b => if s == "" then b else some s

/-- JS template interpolation of a possibly-undefined string. -/
def jsShow : Option String → String
  | none => "undefined"
  | some s => s

/-- JS `a || d` for an optional number (`0` is falsy). -/
def jsNumOr : Option Nat → Nat → Nat
  | none, d => d
  | some n, d => if n == 0 then d else n

/-- JS truthiness of an optional boolean (`undefined` is falsy). -/
def jsTruthyBool : Option Bool → Bool
  | none => false
  | some b => b

/-- JS `a ?? d` (nullish coalescing) for an optional integer. -/
def jsNullish : Option Int → Int → Int
  | none, d => d
  | some n, _ => n

/-- A single-quote character, as it appears inside the error messages. -/
def squo : String := String.singleton (Char.ofNat 39)

/-- Parsed sandbox status body returned by the proxy; every field may be
absent from the JSON. -/
structure SandboxData where
  name : Option String
  nspace : Option String
  serviceFQDN : Option String
  ready : Option Bool
  deriving Repr, DecidableEq

/-- The initial `let sandboxData: any = {}` object. -/
def emptyData : SandboxData := ⟨none, none, none, none⟩

/-- An `errorData` object with no fields. -/
def emptyErr : ErrorBody := ⟨none, none, "{}"⟩

/-- `${errorData.error || errorData.message}` as interpolated into the
failure messages. -/
def backendDetail (eb : ErrorBody) : String := jsShow (jsTruthyOr eb.error eb.message)

/-- Requests and sleeps an operation performs, in order.  The create POST
body also carries identity/namespace fields in V1; only the fields the
claims are about (name, resolved image, resolved port) are recorded. -/
inductive NetCall where
  | createPost (name : String) (image : Option String) (port : Nat)
  | statusGet (name : String)
  | execPost (name : String)
  | listGet
  | deleteReq (name : String)
  | pauseReq (name : String)
  | resumeReq (name : String)
  | pushExec (name : String)
  | sleep (ms : Nat)
  deriving Repr, DecidableEq

/-- The sleeps (in milliseconds) contained in a trace. -/
def sleepsOf (t : List NetCall) : List Nat :=
  t.filterMap fun c =>
    match c with
    | .sleep ms => some ms
    | _ => none

/-- The number of status round trips contained in a trace. -/
def statusCalls (t : List NetCall) : Nat :=
  t.countP fun c =>
    match c with
    | .statusGet _ => true
    | _ => false

/-! ## Readiness poll (V2, part_002 lines 90-115) -/

/-- `const maxAttempts = 12; // 12 * 5 seconds = 60 seconds` -/
def maxAttempts : Nat := 12

/-- `setTimeout(resolve, 5000)` before every status attempt. -/
def pollDelayMs : Nat := 5000

/-- Result of the poll loop: last-stored status body, number of attempts
performed, the delay slept before each attempt, and the `ready` flag. -/
structure PollOut where
  data : SandboxData
  used : Nat
  delays : List Nat
  ready : Bool
  deriving Repr, DecidableEq

/-- The V2 poll loop body, one constructor-case per iteration.  Each
iteration sleeps `pollDelayMs`, then performs one status round trip:
a 2xx body is stored and terminates the loop iff its `ready` field is
truthy; a non-2xx response changes nothing; a thrown error is caught by
the inner `try`/`catch` and changes nothing. -/
def pollFrom (resp : Nat → FetchResult SandboxData) :
    Nat → Nat → SandboxData → PollOut
  | 0, _, d => ⟨d, 0, [], false⟩
  | fuel + 1, idx, d =>
    match resp idx with
    | .ok b =>
      if jsTruthyBool b.ready then ⟨b, 1, [pollDelayMs], true⟩
      else
        let r := pollFrom resp fuel (idx + 1) b
        ⟨r.data, r.used + 1, pollDelayMs :: r.delays, r.ready⟩
    | .notOk _ _ =>
      let r := pollFrom resp fuel (idx + 1) d
      ⟨r.data, r.used + 1, pollDelayMs :: r.delays, r.ready⟩
    | .thrown _ =>
      let r := pollFrom resp fuel (idx + 1) d
      ⟨r.data, r.used + 1, pollDelayMs :: r.delays, r.ready⟩

/-- The whole readiness poll as run by V2 `create_sandbox`. -/
def runPoll (resp : Nat → FetchResult SandboxData) : PollOut :=
  pollFrom resp maxAttempts 0 emptyData

/-- Replaces a thrown transport error on an attempt by an arbitrary non-2xx
response, to state that the loop treats the two identically. -/
def errToNotOk (resp : Nat → FetchResult SandboxData) (st : Nat) (eb : ErrorBody) :
    Nat → FetchResult SandboxData := fun i =>
  match resp i with
  | .thrown _ => .notOk st eb
  | x => x

theorem pollFrom_used_le (resp : Nat → FetchResult SandboxData) :
    ∀ (fuel idx : Nat) (d : SandboxData), (pollFrom resp fuel idx d).used ≤ fuel := by
  intro fuel
  induction fuel with
  | zero => intro idx d; simp [pollFrom]
  | succ n ih =>
    intro idx d
    simp only [pollFrom]
    cases resp idx with
    | ok b =>
      by_cases hb : jsTruthyBool b.ready
      · simp [hb]
      · simp only [hb, if_false]
        exact Nat.succ_le_succ (ih (idx + 1) b)
    | notOk st eb => exact Nat.succ_le_succ (ih (idx + 1) d)
    | thrown m => exact Nat.succ_le_succ (ih (idx + 1) d)

theorem pollFrom_delays (resp : Nat → FetchResult SandboxData) :
    ∀ (fuel idx : Nat) (d : SandboxData),
      (pollFrom resp fuel idx d).delays =
        List.replicate (pollFrom resp fuel idx d).used pollDelayMs := by
  intro fuel
  induction fuel with
  | zero => intro idx d; simp [pollFrom]
  | succ n ih =>
    intro idx d
    simp only [pollFrom]
    cases resp idx with
    | ok b =>
      by_cases hb : jsTruthyBool b.ready
      · simp [hb, List.replicate]
      · simp only [hb, if_false]
        rw [ih (idx + 1) b]; rfl
    | notOk st eb => rw [ih (idx + 1) d]; rfl
    | thrown m => rw [ih (idx + 1) d]; rfl

theorem pollFrom_exit (resp : Nat → FetchResult SandboxData) :
    ∀ (fuel idx : Nat) (d : SandboxData),
      (pollFrom resp fuel idx d).ready = true ∨ (pollFrom resp fuel idx d).used = fuel := by
  intro fuel
  induction fuel with
  | zero => intro idx d; right; simp [pollFrom]
  | succ n ih =>
    intro idx d
    simp only [pollFrom]
    cases resp idx with
    | ok b =>
      by_cases hb : jsTruthyBool b.ready
      · left; simp [hb]
      · simp only [hb, if_false]
        rcases ih (idx + 1) b with h | h
        · left; exact h
        · right; simpa using h
    | notOk st eb =>
      rcases ih (idx + 1) d with h | h
      · left; exact h
      · right; simpa using h
    | thrown m =>
      rcases ih (idx + 1) d with h | h
      · left; exact h
      · right; simpa using h

theorem pollFrom_err_eq (resp : Nat → FetchResult SandboxData) (st : Nat) (eb : ErrorBody) :
    ∀ (fuel idx : Nat) (d : SandboxData),
      pollFrom (errToNotOk resp st eb) fuel idx d = pollFrom resp fuel idx d := by
  intro fuel
  induction fuel with
  | zero => intro idx d; rfl
  | succ n ih =>
    intro idx d
    simp only [pollFrom, errToNotOk]
    cases resp idx with
    | ok b =>
      by_cases hb : jsTruthyBool b.ready
      · simp [hb]
      · simp [hb, ih (idx + 1) b]
    | notOk s e => simp [ih (idx + 1) d]
    | thrown m => simp [ih (idx + 1) d]

theorem pollFrom_ready_observed (resp : Nat → FetchResult SandboxData) :
    ∀ (fuel idx : Nat) (d : SandboxData),
      (pollFrom resp fuel idx d).ready = true →
        ∃ k b, idx ≤ k ∧ k < idx + fuel ∧ resp k = .ok b ∧ jsTruthyBool b.ready = true := by
  intro fuel
  induction fuel with
  | zero => intro idx d h; simp [pollFrom] at h
  | succ n ih =>
    intro idx d h
    simp only [pollFrom] at h
    cases hr : resp idx with
    | ok b =>
      rw [hr] at h
      by_cases hb : jsTruthyBool b.ready
      · exact ⟨idx, b, Nat.le_refl idx, by omega, hr, hb⟩
      · simp only [hb, if_false] at h
        obtain ⟨k, b2, hk1, hk2, hk3, hk4⟩ := ih (idx + 1) b h
        exact ⟨k, b2, by omega, by omega, hk3, hk4⟩
    | notOk s e =>
      rw [hr] at h
      obtain ⟨k, b2, hk1, hk2, hk3, hk4⟩ := ih (idx + 1) d h
      exact ⟨k, b2, by omega, by omega, hk3, hk4⟩
    | thrown m =>
      rw [hr] at h
      obtain ⟨k, b2, hk1, hk2, hk3, hk4⟩ := ih (idx + 1) d h
      exact ⟨k, b2, by omega, by omega, hk3, hk4⟩

theorem pollFrom_never_ready (resp : Nat → FetchResult SandboxData)
    (h : ∀ k b, resp k = .ok b → jsTruthyBool b.ready = false) :
    ∀ (fuel idx : Nat) (d : SandboxData), jsTruthyBool d.ready = false →
      (pollFrom resp fuel idx d).ready = false ∧
        jsTruthyBool (pollFrom resp fuel idx d).data.ready = false ∧
        (pollFrom resp fuel idx d).used = fuel := by
  intro fuel
  induction fuel with
  | zero => intro idx d hd; exact ⟨rfl, hd, rfl⟩
  | succ n ih =>
    intro idx d hd
    simp only [pollFrom]
    cases hr : resp idx with
    | ok b =>
      have hb := h idx b hr
      simp only [hb, if_false]
      obtain ⟨h1, h2, h3⟩ := ih (idx + 1) b hb
      exact ⟨h1, h2, by simp [h3]⟩
    | notOk s e =>
      obtain ⟨h1, h2, h3⟩ := ih (idx + 1) d hd
      exact ⟨h1, h2, by simp [h3]⟩
    | thrown m =>
      obtain ⟨h1, h2, h3⟩ := ih (idx + 1) d hd
      exact ⟨h1, h2, by simp [h3]⟩

/-! ## Configuration loading -/

/-- Parsed contents of `config.json`; every field may be absent. -/
structure RawConfig where
  proxyUrl : Option String
  apiKey : Option String
  username : Option String
  nspace : Option String
  kubeconfig : Option String
  defaultImage : Option String
  defaultPort : Option Nat
  deriving Repr, DecidableEq

/-- `loadConfig` error message when `proxyUrl` is absent (V1 and V2). -/
def proxyUrlRequiredMsg : String :=
  "proxyUrl is required in config.json. Please set it to your proxy URL (e.g., http://34.27.37.121)"

/-- `loadConfig` error message when `apiKey` is absent (V2 only). -/
def apiKeyRequiredMsg : String :=
  "apiKey is required in config.json. Generate one via the admin API: POST /api/admin/users/<userId>/apikeys"

/-- `send_prompt_to_sandbox` error message for a missing `proxyUrl`
(checked after `loadConfig`, before the fetch, in V1, V2 and V3). -/
def proxyUrlNotConfiguredMsg : String :=
  "proxyUrl not configured. Please set proxyUrl in config.json"

/-- V1 `loadConfig` (src/remote-sandbox.ts lines 30-46): requires a truthy
`proxyUrl`; the file-not-found branch is outside this model (the config is
taken as already parsed). -/
def loadConfigV1 (raw : RawConfig) : Except String RawConfig :=
  if jsTruthyStr raw.proxyUrl then .ok raw else .error proxyUrlRequiredMsg

/-- V2 `loadConfig` (src/unnamed/part_002 lines 29-49): requires truthy
`proxyUrl` and `apiKey`. -/
def loadConfigV2 (raw : RawConfig) : Except String RawConfig :=
  if jsTruthyStr raw.proxyUrl then
    if jsTruthyStr raw.apiKey then .ok raw else .error apiKeyRequiredMsg
  else .error proxyUrlRequiredMsg

/-- V3 `loadConfig` (src/unnamed/part_003 lines 35-48): the parsed file if
readable, otherwise a default config; it never validates anything. -/
def loadConfigV3 (file : Option RawConfig) : RawConfig :=
  match file with
  | some c => c
  | none =>
    { proxyUrl := none, apiKey := none, username := some "default",
      nspace := some "default", kubeconfig := none,
      defaultImage := some "sandbox-runtime:latest", defaultPort := some 8888 }

/-! ## Shared response handlers -/

/-- `Sandbox '<name>' not found` -/
def notFoundMsg (name : String) : String :=
  "Sandbox " ++ (squo ++ (name ++ (squo ++ " not found")))

/-- The non-404 failure message of `get_sandbox_status`. -/
def statusFailMsg (eb : ErrorBody) : String :=
  "Failed to get sandbox status: " ++ backendDetail eb

/-- The non-404 failure message of `delete_sandbox`. -/
def deleteFailMsg (eb : ErrorBody) : String :=
  "Failed to delete sandbox: " ++ backendDetail eb

/-- The non-404 failure message of `pause_sandbox`. -/
def pauseFailMsg (eb : ErrorBody) : String :=
  "Failed to pause sandbox: " ++ backendDetail eb

/-- The non-404 failure message of `resume_sandbox`. -/
def resumeFailMsg (eb : ErrorBody) : String :=
  "Failed to resume sandbox: " ++ backendDetail eb

/-- The failure message of a rejected creation request. -/
def createFailMsg (eb : ErrorBody) : String :=
  "Failed to create sandbox: " ++ backendDetail eb

/-- The failure message of `list_sandboxes`. -/
def listFailMsg (eb : ErrorBody) : String :=
  "Failed to list sandboxes: " ++ backendDetail eb

/-- Response handling shared by the status/delete/pause/resume tools in V1
and V2: a 2xx body is returned verbatim; a 404 throws the not-found
message; any other non-2xx throws the operation's failure message; all
thrown errors become the structured failure shape. -/
def respond404 (failMsg : ErrorBody → String) (name : String) :
    FetchResult α → ToolResult α
  | .ok b => .ok b
  | .thrown m => .failure m
  | .notOk st eb => if st == 404 then .failure (notFoundMsg name) else .failure (failMsg eb)

/-- `get_sandbox_status` response handling (V1 lines 174-182, V2 lines 175-183). -/
def statusRespond (name : String) (r : FetchResult SandboxData) : ToolResult SandboxData :=
  respond404 statusFailMsg name r

/-- `delete_sandbox` response handling (V1 lines 348-356, V2 lines 357-365). -/
def deleteRespond (name : String) (r : FetchResult SandboxData) : ToolResult SandboxData :=
  respond404 deleteFailMsg name r

/-- `pause_sandbox` response handling (V1 lines 403-411, V2 lines 414-422). -/
def pauseRespond (name : String) (r : FetchResult SandboxData) : ToolResult SandboxData :=
  respond404 pauseFailMsg name r

/-- `resume_sandbox` response handling (V1 lines 458-466, V2 lines 471-479). -/
def resumeRespond (name : String) (r : FetchResult SandboxData) : ToolResult SandboxData :=
  respond404 resumeFailMsg name r

/-! ## Execute (send_prompt_to_sandbox), shared by V1, V2 and V3 -/

/-- The `data` object of the AIO sandbox response body. -/
structure ExecData where
  output : Option String
  exit_code : Option Int
  session_id : Option String
  deriving Repr, DecidableEq

/-- The AIO sandbox response body `{ success, message, data: { ... } }`. -/
structure ExecBody where
  success : Option Bool
  data : Option ExecData
  deriving Repr, DecidableEq

/-- The payload of a transport-successful `send_prompt_to_sandbox` call. -/
structure ExecResult where
  success : Option Bool
  sandbox : String
  command : String
  output : String
  exit_code : Int
  session_id : Option String
  deriving Repr, DecidableEq

/-- `send_prompt_to_sandbox` response handling (identical in the three
variants): a non-2xx response throws
`Proxy returned <status>: <stringified body>`; a 2xx body is reported with
`output = data.data?.output || ''` and
`exit_code = data.data?.exit_code ?? -1`, and `success` is the body's own
`success` field. -/
def sendPromptCore (name command : String) : FetchResult ExecBody → ToolResult ExecResult
  | .thrown m => .failure m
  | .notOk st eb => .failure ("Proxy returned " ++ (toString st ++ (": " ++ eb.raw)))
  | .ok b =>
    .ok { success := b.success
          sandbox := name
          command := command
          output := jsOrStr (b.data.bind (fun d => d.output)) ""
          exit_code := jsNullish (b.data.bind (fun d => d.exit_code)) (-1)
          session_id := b.data.bind (fun d => d.session_id) }

/-! ## V2 operations (src/unnamed/part_002) -/

/-- The final `sandbox` object of a successful create result. -/
structure SandboxOut where
  name : String
  nspace : String
  serviceFQDN : String
  ready : Bool
  deriving Repr, DecidableEq

/-- The success payload of `create_sandbox`. -/
structure CreateOk where
  message : String
  sandbox : SandboxOut
  deriving Repr, DecidableEq

/-- `Sandbox '<name>' created successfully` -/
def createdMsg (name : String) : String :=
  "Sandbox " ++ (squo ++ (name ++ (squo ++ " created successfully")))

/-- The V2 create success payload (part_002 lines 120-136): every missing
field of the last-observed status body is defaulted (name to the request
name, namespace and serviceFQDN to `pending`, ready to `false`). -/
def buildCreateOk (name : String) (d : SandboxData) : CreateOk :=
  { message := createdMsg name
    sandbox := { name := jsOrStr d.name name
                 nspace := jsOrStr d.nspace "pending"
                 serviceFQDN := jsOrStr d.serviceFQDN "pending"
                 ready := jsTruthyBool d.ready } }

/-- V2 `create_sandbox` (part_002 lines 62-151): load config, resolve image
and port defaults, POST the creation request, and on acceptance run the
readiness poll and return the success payload built from its last-observed
body.  The second component is the trace of requests made. -/
def createV2 (raw : RawConfig) (name : String) (image : Option String)
    (port : Option Nat) (cr : FetchResult Unit)
    (stat : Nat → FetchResult SandboxData) : ToolResult CreateOk × List NetCall :=
  match loadConfigV2 raw with
  | .error e => (.failure e, [])
  | .ok cfg =>
    let img := jsTruthyOr image cfg.defaultImage
    let prt := jsNumOr port (jsNumOr cfg.defaultPort 8888)
    let req : NetCall := .createPost name img prt
    match cr with
    | .thrown m => (.failure m, [req])
    | .notOk _ eb => (.failure (createFailMsg eb), [req])
    | .ok _ =>
      let p := runPoll stat
      (.ok (buildCreateOk name p.data),
        req :: List.replicate p.used (.statusGet name))

/-- V2 `get_sandbox_status` (part_002 lines 163-207). -/
def getStatusV2 (raw : RawConfig) (name : String) (r : FetchResult SandboxData) :
    ToolResult SandboxData × List NetCall :=
  match loadConfigV2 raw with
  | .error e => (.failure e, [])
  | .ok _ => (statusRespond name r, [.statusGet name])

/-- V2 `delete_sandbox` (part_002 lines 344-389). -/
def deleteV2 (raw : RawConfig) (name : String) (r : FetchResult SandboxData) :
    ToolResult SandboxData × List NetCall :=
  match loadConfigV2 raw with
  | .error e => (.failure e, [])
  | .ok _ => (deleteRespond name r, [.deleteReq name])

/-- V2 `pause_sandbox` (part_002 lines 401-446). -/
def pauseV2 (raw : RawConfig) (name : String) (r : FetchResult SandboxData) :
    ToolResult SandboxData × List NetCall :=
  match loadConfigV2 raw with
  | .error e => (.failure e, [])
  | .ok _ => (pauseRespond name r, [.pauseReq name])

/-- V2 `resume_sandbox` (part_002 lines 458-503). -/
def resumeV2 (raw : RawConfig) (name : String) (r : FetchResult SandboxData) :
    ToolResult SandboxData × List NetCall :=
  match loadConfigV2 raw with
  | .error e => (.failure e, [])
  | .ok _ => (resumeRespond name r, [.resumeReq name])

/-- V2 `send_prompt_to_sandbox` (part_002 lines 220-281), including the
redundant post-load `proxyUrl` check. -/
def sendPromptV2 (raw : RawConfig) (name command : String)
    (r : FetchResult ExecBody) : ToolResult ExecResult × List NetCall :=
  match loadConfigV2 raw with
  | .error e => (.failure e, [])
  | .ok cfg =>
    if jsTruthyStr cfg.proxyUrl then (sendPromptCore name command r, [.execPost name])
    else (.failure proxyUrlNotConfiguredMsg, [])

/-- V2 `list_sandboxes` (part_002 lines 291-332): the 2xx body is returned
verbatim, with no 404 special case. -/
def listV2 (raw : RawConfig) (r : FetchResult α) : ToolResult α × List NetCall :=
  match loadConfigV2 raw with
  | .error e => (.failure e, [])
  | .ok _ =>
    (match r with
     | .ok b => .ok b
     | .thrown m => .failure m
     | .notOk _ eb => .failure (listFailMsg eb), [.listGet])

/-! ## V1 operations (src/remote-sandbox.ts) -/

/-- Outcome of the best-effort settings push (`fetch` of the exec endpoint
whose response is never inspected). -/
inductive PushOutcome where
  | ok
  | notOk
  | thrown
  deriving Repr, DecidableEq

/-- The `try { await fetch(...) } catch (e) { /* ignore */ }` wrapper around
the settings push: every outcome, including a thrown transport error, is
swallowed. -/
def bestEffortPush : PushOutcome → Unit
  | .ok => ()
  | .notOk => ()
  | .thrown => ()

/-- The V1 create success payload (remote-sandbox.ts lines 123-139): like
V2 but the namespace defaults to the resolved config namespace rather than
`pending`. -/
def buildCreateOkV1 (name nspaceResolved : String) (d : SandboxData) : CreateOk :=
  { message := createdMsg name
    sandbox := { name := jsOrStr d.name name
                 nspace := jsOrStr d.nspace nspaceResolved
                 serviceFQDN := jsOrStr d.serviceFQDN "pending"
                 ready := jsTruthyBool d.ready } }

/-- V1 `create_sandbox` (remote-sandbox.ts lines 59-153): load config, POST
the creation request, sleep a fixed 30000 ms, perform exactly one status
round trip (a 2xx body is kept, a non-2xx leaves `{}`, a thrown error
propagates to the outer catch and fails the whole operation), then attempt
the best-effort settings push, whose outcome is ignored. -/
def createV1 (raw : RawConfig) (name : String) (image : Option String)
    (port : Option Nat) (cr : FetchResult Unit) (stat : FetchResult SandboxData)
    (push : PushOutcome) : ToolResult CreateOk × List NetCall :=
  match loadConfigV1 raw with
  | .error e => (.failure e, [])
  | .ok cfg =>
    let img := jsTruthyOr image cfg.defaultImage
    let prt := jsNumOr port (jsNumOr cfg.defaultPort 8888)
    let nspaceResolved := jsOrStr cfg.nspace "default"
    let req : NetCall := .createPost name img prt
    match cr with
    | .thrown m => (.failure m, [req])
    | .notOk _ eb => (.failure (createFailMsg eb), [req])
    | .ok _ =>
      match stat with
      | .thrown m => (.failure m, [req, .sleep 30000, .statusGet name])
      | .ok b =>
        let _ := bestEffortPush push
        (.ok (buildCreateOkV1 name nspaceResolved b),
          [req, .sleep 30000, .statusGet name, .pushExec name])
      | .notOk _ _ =>
        let _ := bestEffortPush push
        (.ok (buildCreateOkV1 name nspaceResolved emptyData),
          [req, .sleep 30000, .statusGet name, .pushExec name])

/-- V1 `get_sandbox_status` (remote-sandbox.ts lines 165-205). -/
def getStatusV1 (raw : RawConfig) (name : String) (r : FetchResult SandboxData) :
    ToolResult SandboxData × List NetCall :=
  match loadConfigV1 raw with
  | .error e => (.failure e, [])
  | .ok _ => (statusRespond name r, [.statusGet name])

/-- V1 `delete_sandbox` (remote-sandbox.ts lines 336-379). -/
def deleteV1 (raw : RawConfig) (name : String) (r : FetchResult SandboxData) :
    ToolResult SandboxData × List NetCall :=
  match loadConfigV1 raw with
  | .error e => (.failure e, [])
  | .ok _ => (deleteRespond name r, [.deleteReq name])

/-- V1 `pause_sandbox` (remote-sandbox.ts lines 391-433). -/
def pauseV1 (raw : RawConfig) (name : String) (r : FetchResult SandboxData) :
    ToolResult SandboxData × List NetCall :=
  match loadConfigV1 raw with
  | .error e => (.failure e, [])
  | .ok _ => (pauseRespond name r, [.pauseReq name])

/-- V1 `resume_sandbox` (remote-sandbox.ts lines 446-488). -/
def resumeV1 (raw : RawConfig) (name : String) (r : FetchResult SandboxData) :
    ToolResult SandboxData × List NetCall :=
  match loadConfigV1 raw with
  | .error e => (.failure e, [])
  | .ok _ => (resumeRespond name r, [.resumeReq name])

/-- V1 `send_prompt_to_sandbox` (remote-sandbox.ts lines 218-278). -/
def sendPromptV1 (raw : RawConfig) (name command : String)
    (r : FetchResult ExecBody) : ToolResult ExecResult × List NetCall :=
  match loadConfigV1 raw with
  | .error e => (.failure e, [])
  | .ok cfg =>
    if jsTruthyStr cfg.proxyUrl then (sendPromptCore name command r, [.execPost name])
    else (.failure proxyUrlNotConfiguredMsg, [])

/-- V1 `list_sandboxes` (remote-sandbox.ts lines 288-324). -/
def listV1 (raw : RawConfig) (r : FetchResult α) : ToolResult α × List NetCall :=
  match loadConfigV1 raw with
  | .error e => (.failure e, [])
  | .ok _ =>
    (match r with
     | .ok b => .ok b
     | .thrown m => .failure m
     | .notOk _ eb => .failure (listFailMsg eb), [.listGet])

/-! ## V3 operations (src/unnamed/part_003, direct kubectl) -/

/-- `--kubeconfig=<path>` when the config has a truthy kubeconfig, else
the empty string (part_003 line 52). -/
def kubeconfigFlag : Option String → String
  | none => ""
  | some k => if k == "" then "" else "--kubeconfig=" ++ k

/-- `-n <namespace>` when the config has a truthy namespace, else the empty
string (part_003 line 53). -/
def namespaceFlag : Option String → String
  | none => ""
  | some n => if n == "" then "" else "-n " ++ n

/-- The shell command string built by `kubectl` (part_003 line 54):
`kubectl ${kubeconfigFlag} ${namespaceFlag} ${args.join(' ')}` — plain
string interpolation, no quoting or escaping of any part. -/
def kubectlCmd (cfg : RawConfig) (args : List String) : String :=
  "kubectl " ++ (kubeconfigFlag cfg.kubeconfig ++ (" " ++ (namespaceFlag cfg.nspace ++
    (" " ++ String.intercalate " " args))))

/-- The fixed part of the kubectl command line for a given config. -/
def kubectlBase (cfg : RawConfig) : String :=
  "kubectl " ++ (kubeconfigFlag cfg.kubeconfig ++ (" " ++ (namespaceFlag cfg.nspace ++ " ")))

/-- The command executed by V3 `delete_sandbox` (part_003 line 399):
`kubectl(['delete', 'sandbox', name], config)`. -/
def deleteCmdV3 (cfg : RawConfig) (name : String) : String :=
  kubectlCmd cfg ["delete", "sandbox", name]

/-- A condition entry of the Sandbox resource status. -/
structure K8sCondition where
  type : String
  status : String
  deriving Repr, DecidableEq

/-- Metadata of the Sandbox resource. -/
structure K8sMeta where
  name : String
  nspace : String
  deriving Repr, DecidableEq

/-- Status of the Sandbox resource; may be absent. -/
structure K8sStatus where
  serviceFQDN : Option String
  conditions : Option (List K8sCondition)
  deriving Repr, DecidableEq

/-- The Sandbox resource as parsed from `kubectl get sandbox <name> -o json`. -/
structure K8sSandbox where
  metadata : K8sMeta
  status : Option K8sStatus
  deriving Repr, DecidableEq

/-- `sandboxData.status?.conditions?.find(c => c.type === 'Ready')?.status === 'True'` -/
def k8sReady (d : K8sSandbox) : Bool :=
  match (d.status.bind (fun s => s.conditions)).bind
      (List.find? (fun c => c.type == "Ready")) with
  | some c => c.status == "True"
  | none => false

/-- The tail of V3 `create_sandbox` (part_003 lines 134-175): once the
sandbox resource has been read back, the settings push is attempted only
when `config.proxyUrl` is truthy, inside a try/catch that swallows every
outcome, and the success payload is built from the parsed resource. -/
def createTailV3 (proxyUrl : Option String) (name : String) (d : K8sSandbox)
    (push : PushOutcome) : CreateOk :=
  let _ := if jsTruthyStr proxyUrl then bestEffortPush push else ()
  { message := createdMsg name
    sandbox := { name := d.metadata.name
                 nspace := d.metadata.nspace
                 serviceFQDN := jsOrStr (d.status.bind (fun s => s.serviceFQDN)) "pending"
                 ready := k8sReady d } }

/-- V3 `send_prompt_to_sandbox` (part_003 lines 274-334): config never
fails to load; a falsy `proxyUrl` throws the descriptive message before the
fetch. -/
def sendPromptV3 (file : Option RawConfig) (name command : String)
    (r : FetchResult ExecBody) : ToolResult ExecResult × List NetCall :=
  let cfg := loadConfigV3 file
  if jsTruthyStr cfg.proxyUrl then (sendPromptCore name command r, [.execPost name])
  else (.failure proxyUrlNotConfiguredMsg, [])

/-! ## Helper lemmas -/

/-- The first character of a string. -/
def firstChar (s : String) : Option Char := s.data.head?

theorem ne_of_firstChar_ne (s t : String) (h : firstChar s ≠ firstChar t) : s ≠ t :=
  fun e => h (congrArg firstChar e)

theorem firstChar_append (a b : String) (c : Char) (h : firstChar a = some c) :
    firstChar (a ++ b) = some c := by
  obtain ⟨l⟩ := a
  obtain ⟨m⟩ := b
  cases l with
  | nil => simp [firstChar] at h
  | cons x xs =>
    simp only [firstChar, String.data] at h ⊢
    have e : (⟨x :: xs⟩ : String) ++ (⟨m⟩ : String) = ⟨(x :: xs) ++ m⟩ := rfl
    rw [e]
    simpa using h

/-- Every `Failed to ...` message differs from every `Sandbox '...' not
found` message, already on the first character. -/
theorem failed_ne_notFound (lead detail name : String)
    (hl : firstChar lead = some (Char.ofNat 70)) :
    lead ++ detail ≠ notFoundMsg name := by
  apply ne_of_firstChar_ne
  rw [firstChar_append lead detail (Char.ofNat 70) hl, notFoundMsg,
    firstChar_append "Sandbox " _ (Char.ofNat 83) (by decide)]
  decide

theorem statusCalls_replicate (n : Nat) (nm : String) :
    statusCalls (List.replicate n (NetCall.statusGet nm)) = n := by
  induction n with
  | zero => rfl
  | succ k ih =>
    rw [List.replicate_succ]
    simp only [statusCalls, List.countP_cons] at ih ⊢
    simp [ih]

theorem intercalate_delete (name : String) :
    String.intercalate " " ["delete", "sandbox", name] = "delete sandbox " ++ name := by
  obtain ⟨l⟩ := name
  rfl

/-! ## Concrete inputs used by witnesses and counterexamples -/

/-- A config with only a proxy URL (valid for V1). -/
def cfgProxyOnly : RawConfig :=
  { proxyUrl := some "http://proxy", apiKey := none, username := none, nspace := none,
    kubeconfig := none, defaultImage := none, defaultPort := none }

/-- A config with proxy URL and API key (valid for V2). -/
def cfgFull : RawConfig :=
  { proxyUrl := some "http://proxy", apiKey := some "key", username := none, nspace := none,
    kubeconfig := none, defaultImage := none, defaultPort := none }

/-- An entirely empty config. -/
def cfgNone : RawConfig :=
  { proxyUrl := none, apiKey := none, username := none, nspace := none,
    kubeconfig := none, defaultImage := none, defaultPort := none }

/-- A status backend that always answers HTTP 500. -/
def statNever : Nat → FetchResult SandboxData := fun _ => .notOk 500 emptyErr

/-- A status body whose `ready` field is `true`. -/
def readyBody : SandboxData :=
  { name := some "s1", nspace := some "default", serviceFQDN := some "svc", ready := some true }

/-- A status backend that reports ready on every attempt. -/
def statAlwaysReady : Nat → FetchResult SandboxData := fun _ => .ok readyBody

/-! ## Claims -/

/-- Claim C1, counterexample: in the src/remote-sandbox.ts variant of
`create_sandbox` (cited by the claim), an accepted creation request is
followed by a single 30000 ms wait and exactly one status attempt — not a
fixed 5000 ms delay before each attempt, so the claim as stated fails on
this create variant. -/
theorem claim1_counterexample :
    sleepsOf (createV1 cfgProxyOnly "s1" none none (.ok ()) (.notOk 500 emptyErr) .ok).2
      = [30000] ∧
    statusCalls (createV1 cfgProxyOnly "s1" none none (.ok ()) (.notOk 500 emptyErr) .ok).2
      = 1 ∧
    (30000 : Nat) ≠ pollDelayMs := by
  refine ⟨rfl, rfl, by decide⟩

/-- Claim C1, amended: in the polling variant (src/unnamed/part_002), the
readiness poll performs at most 12 status attempts, sleeps exactly the
fixed 5000 ms delay before each attempt, and its total delay never exceeds
the 60-second budget, for every pattern of backend outcomes; the
remote-sandbox.ts variant instead performs a single fixed 30-second wait
followed by one status attempt. -/
theorem claim1_theorem (resp : Nat → FetchResult SandboxData) (raw : RawConfig)
    (name : String) (image : Option String) (port : Option Nat) (cr : FetchResult Unit) :
    (runPoll resp).used ≤ maxAttempts ∧
    (runPoll resp).delays = List.replicate (runPoll resp).used pollDelayMs ∧
    (runPoll resp).delays.sum ≤ 60000 ∧
    statusCalls (createV2 raw name image port cr resp).2 ≤ maxAttempts := by
  have hu : (runPoll resp).used ≤ maxAttempts := pollFrom_used_le resp maxAttempts 0 emptyData
  have hd : (runPoll resp).delays = List.replicate (runPoll resp).used pollDelayMs :=
    pollFrom_delays resp maxAttempts 0 emptyData
  refine ⟨hu, hd, ?_, ?_⟩
  · rw [hd, List.sum_const_nat]
    calc (runPoll resp).used * pollDelayMs ≤ maxAttempts * pollDelayMs :=
          Nat.mul_le_mul_right pollDelayMs hu
      _ ≤ 60000 := by decide
  · unfold createV2
    cases loadConfigV2 raw with
    | error e => simp [statusCalls]
    | ok cfg =>
      cases cr with
      | thrown m => simp [statusCalls]
      | notOk st eb => simp [statusCalls]
      | ok u =>
        simp only [statusCalls, List.countP_cons]
        have := statusCalls_replicate (runPoll resp).used name
        simp only [statusCalls] at this
        rw [this]
        simpa using hu

/-- Claim C2: during the part_002 readiness poll, a thrown transport error
on an attempt behaves exactly like a non-2xx response (the attempt is
treated as not-ready and the loop continues); the loop terminates only by
observing a truthy `ready` on a 2xx body or by exhausting all attempts,
and the poll result carries no per-attempt error. -/
theorem claim2_theorem (resp : Nat → FetchResult SandboxData) (st : Nat) (eb : ErrorBody) :
    (∀ (fuel idx : Nat) (d : SandboxData),
        pollFrom (errToNotOk resp st eb) fuel idx d = pollFrom resp fuel idx d) ∧
    ((runPoll resp).ready = true ∨ (runPoll resp).used = maxAttempts) ∧
    ((runPoll resp).ready = true →
      ∃ k b, k < maxAttempts ∧ resp k = .ok b ∧ jsTruthyBool b.ready = true) := by
  refine ⟨pollFrom_err_eq resp st eb, pollFrom_exit resp maxAttempts 0 emptyData, ?_⟩
  intro h
  obtain ⟨k, b, _, hk2, hk3, hk4⟩ := pollFrom_ready_observed resp maxAttempts 0 emptyData h
  exact ⟨k, b, by simpa using hk2, hk3, hk4⟩

/-- Witness for C2 at a backend that reports ready immediately. -/
theorem claim2_witness :
    ∃ k b, k < maxAttempts ∧ statAlwaysReady k = .ok b ∧ jsTruthyBool b.ready = true :=
  (claim2_theorem statAlwaysReady 500 emptyErr).2.2 (by decide)

/-- Claim C3: when the part_002 readiness poll exhausts all attempts
without ever observing a truthy `ready`, `create_sandbox` still returns
the success-shaped payload (the `.ok` constructor, i.e. `success: true`),
built from the last-observed status body, and its `ready` field is
`false` — still-provisioning is data, not a failure. -/
theorem claim3_theorem (raw : RawConfig) (name : String) (image : Option String)
    (port : Option Nat) (stat : Nat → FetchResult SandboxData)
    (hcfg : loadConfigV2 raw = .ok raw)
    (hnr : ∀ k b, stat k = .ok b → jsTruthyBool b.ready = false) :
    (createV2 raw name image port (.ok ()) stat).1 =
      .ok (buildCreateOk name (runPoll stat).data) ∧
    (buildCreateOk name (runPoll stat).data).sandbox.ready = false ∧
    (runPoll stat).used = maxAttempts ∧
    (runPoll stat).ready = false := by
  obtain ⟨h1, h2, h3⟩ :=
    pollFrom_never_ready stat hnr maxAttempts 0 emptyData (by decide)
  refine ⟨?_, ?_, h3, h1⟩
  · unfold createV2
    rw [hcfg]
  · simp [buildCreateOk]
    exact h2

/-- Witness for C3 at a backend that always answers HTTP 500. -/
theorem claim3_witness :
    (createV2 cfgFull "s1" none none (.ok ()) statNever).1 =
      .ok (buildCreateOk "s1" (runPoll statNever).data) ∧
    (buildCreateOk "s1" (runPoll statNever).data).sandbox.ready = false ∧
    (runPoll statNever).used = maxAttempts ∧
    (runPoll statNever).ready = false :=
  claim3_theorem cfgFull "s1" none none statNever rfl (fun _ _ h => nomatch h)

/-- Claim C4: in the proxy-HTTP variants, the status/delete/pause/resume
handlers turn an HTTP 404 into the `Sandbox '<name>' not found` failure,
whose message contains the target name and differs from the
`Failed to ...` message produced for every other non-2xx response; in
particular a delete answered by 404 is a failure, never a success
payload. -/
theorem claim4_theorem (name : String) (eb : ErrorBody) (st : Nat) (hst : st ≠ 404) :
    statusRespond name (.notOk 404 eb) = .failure (notFoundMsg name) ∧
    deleteRespond name (.notOk 404 eb) = .failure (notFoundMsg name) ∧
    pauseRespond name (.notOk 404 eb) = .failure (notFoundMsg name) ∧
    resumeRespond name (.notOk 404 eb) = .failure (notFoundMsg name) ∧
    (∃ pre suf, notFoundMsg name = pre ++ (name ++ suf)) ∧
    statusRespond name (.notOk st eb) = .failure (statusFailMsg eb) ∧
    deleteRespond name (.notOk st eb) = .failure (deleteFailMsg eb) ∧
    pauseRespond name (.notOk st eb) = .failure (pauseFailMsg eb) ∧
    resumeRespond name (.notOk st eb) = .failure (resumeFailMsg eb) ∧
    statusFailMsg eb ≠ notFoundMsg name ∧
    deleteFailMsg eb ≠ notFoundMsg name ∧
    pauseFailMsg eb ≠ notFoundMsg name ∧
    resumeFailMsg eb ≠ notFoundMsg name ∧
    (∀ b, deleteRespond name (.notOk 404 eb) ≠ .ok b) := by
  have h4 : (st == 404) = false := beq_eq_false_iff_ne.mpr hst
  refine ⟨rfl, rfl, rfl, rfl, ⟨"Sandbox " ++ squo, squo ++ " not found", by
      rw [notFoundMsg, String.append_assoc]⟩, ?_, ?_, ?_, ?_, ?_, ?_, ?_, ?_, ?_⟩
  · simp [statusRespond, respond404, h4]
  · simp [deleteRespond, respond404, h4]
  · simp [pauseRespond, respond404, h4]
  · simp [resumeRespond, respond404, h4]
  · exact failed_ne_notFound "Failed to get sandbox status: " (backendDetail eb) name (by decide)
  · exact failed_ne_notFound "Failed to delete sandbox: " (backendDetail eb) name (by decide)
  · exact failed_ne_notFound "Failed to pause sandbox: " (backendDetail eb) name (by decide)
  · exact failed_ne_notFound "Failed to resume sandbox: " (backendDetail eb) name (by decide)
  · intro b
    simp [deleteRespond, respond404]

/-- Witness for C4 at a concrete name, error body and status 500. -/
theorem claim4_witness :
    statusRespond "ghost" (.notOk 404 ⟨some "boom", none, "raw"⟩) =
      .failure (notFoundMsg "ghost") ∧
    deleteRespond "ghost" (.notOk 404 ⟨some "boom", none, "raw"⟩) =
      .failure (notFoundMsg "ghost") ∧
    pauseRespond "ghost" (.notOk 404 ⟨some "boom", none, "raw"⟩) =
      .failure (notFoundMsg "ghost") ∧
    resumeRespond "ghost" (.notOk 404 ⟨some "boom", none, "raw"⟩) =
      .failure (notFoundMsg "ghost") ∧
    (∃ pre suf, notFoundMsg "ghost" = pre ++ ("ghost" ++ suf)) ∧
    statusRespond "ghost" (.notOk 500 ⟨some "boom", none, "raw"⟩) =
      .failure (statusFailMsg ⟨some "boom", none, "raw"⟩) ∧
    deleteRespond "ghost" (.notOk 500 ⟨some "boom", none, "raw"⟩) =
      .failure (deleteFailMsg ⟨some "boom", none, "raw"⟩) ∧
    pauseRespond "ghost" (.notOk 500 ⟨some "boom", none, "raw"⟩) =
      .failure (pauseFailMsg ⟨some "boom", none, "raw"⟩) ∧
    resumeRespond "ghost" (.notOk 500 ⟨some "boom", none, "raw"⟩) =
      .failure (resumeFailMsg ⟨some "boom", none, "raw"⟩) ∧
    statusFailMsg ⟨some "boom", none, "raw"⟩ ≠ notFoundMsg "ghost" ∧
    deleteFailMsg ⟨some "boom", none, "raw"⟩ ≠ notFoundMsg "ghost" ∧
    pauseFailMsg ⟨some "boom", none, "raw"⟩ ≠ notFoundMsg "ghost" ∧
    resumeFailMsg ⟨some "boom", none, "raw"⟩ ≠ notFoundMsg "ghost" ∧
    (∀ b, deleteRespond "ghost" (.notOk 404 ⟨some "boom", none, "raw"⟩) ≠ .ok b) :=
  claim4_theorem "ghost" ⟨some "boom", none, "raw"⟩ 500 (by decide)

/-- Claim C5: a transport-successful `send_prompt_to_sandbox` round trip
returns the backend-reported exit code (zero or not) as data inside the
`.ok` payload, never as the structured failure shape; only a non-2xx
response or a thrown transport error produces the failure shape. -/
theorem claim5_theorem (name command : String) (b : ExecBody) (d : ExecData) (n : Int)
    (hd : b.data = some d) (hn : d.exit_code = some n) :
    sendPromptCore name command (.ok b) =
      .ok { success := b.success, sandbox := name, command := command,
            output := jsOrStr d.output "", exit_code := n,
            session_id := d.session_id } ∧
    (∀ st eb, sendPromptCore name command (.notOk st eb) =
      .failure ("Proxy returned " ++ (toString st ++ (": " ++ eb.raw)))) ∧
    (∀ m, sendPromptCore name command (.thrown m) = .failure m) := by
  refine ⟨?_, fun st eb => rfl, fun m => rfl⟩
  simp [sendPromptCore, hd, hn, jsNullish]

/-- Witness for C5: the spec scenario of a command that ran with exit
code 2. -/
theorem claim5_witness :
    sendPromptCore "s1" "make" (.ok ⟨some true, some ⟨some "out", some 2, none⟩⟩) =
      .ok { success := some true, sandbox := "s1", command := "make",
            output := jsOrStr (some "out") "", exit_code := 2,
            session_id := none } ∧
    (∀ st eb, sendPromptCore "s1" "make" (.notOk st eb) =
      .failure ("Proxy returned " ++ (toString st ++ (": " ++ eb.raw)))) ∧
    (∀ m, sendPromptCore "s1" "make" (.thrown m) = .failure m) :=
  claim5_theorem "s1" "make" ⟨some true, some ⟨some "out", some 2, none⟩⟩
    ⟨some "out", some 2, none⟩ 2 rfl rfl

/-- Claim C6: a missing required configuration field makes every operation
fail with the descriptive message naming that field, before any network
request is made (the trace of requests is empty): a falsy `proxyUrl` fails
all V1 and V2 operations, a falsy `apiKey` fails all V2 operations, and in
V3 (where only `send_prompt_to_sandbox` requires the proxy URL) a falsy
`proxyUrl` fails that operation before its fetch. -/
theorem claim6_theorem (raw : RawConfig) (file : Option RawConfig)
    (name command : String) (image : Option String) (port : Option Nat)
    (cr : FetchResult Unit) (stat : Nat → FetchResult SandboxData)
    (rs : FetchResult SandboxData) (re : FetchResult ExecBody)
    (rl : FetchResult SandboxData) (push : PushOutcome) :
    (jsTruthyStr raw.proxyUrl = false →
      createV2 raw name image port cr stat = (.failure proxyUrlRequiredMsg, []) ∧
      getStatusV2 raw name rs = (.failure proxyUrlRequiredMsg, []) ∧
      deleteV2 raw name rs = (.failure proxyUrlRequiredMsg, []) ∧
      pauseV2 raw name rs = (.failure proxyUrlRequiredMsg, []) ∧
      resumeV2 raw name rs = (.failure proxyUrlRequiredMsg, []) ∧
      sendPromptV2 raw name command re = (.failure proxyUrlRequiredMsg, []) ∧
      listV2 raw rl = (.failure proxyUrlRequiredMsg, []) ∧
      createV1 raw name image port cr rs push = (.failure proxyUrlRequiredMsg, []) ∧
      getStatusV1 raw name rs = (.failure proxyUrlRequiredMsg, []) ∧
      deleteV1 raw name rs = (.failure proxyUrlRequiredMsg, []) ∧
      pauseV1 raw name rs = (.failure proxyUrlRequiredMsg, []) ∧
      resumeV1 raw name rs = (.failure proxyUrlRequiredMsg, []) ∧
      sendPromptV1 raw name command re = (.failure proxyUrlRequiredMsg, []) ∧
      listV1 raw rl = (.failure proxyUrlRequiredMsg, []) ∧
      (∃ t, proxyUrlRequiredMsg = "proxyUrl" ++ t)) ∧
    (jsTruthyStr raw.proxyUrl = true → jsTruthyStr raw.apiKey = false →
      createV2 raw name image port cr stat = (.failure apiKeyRequiredMsg, []) ∧
      getStatusV2 raw name rs = (.failure apiKeyRequiredMsg, []) ∧
      deleteV2 raw name rs = (.failure apiKeyRequiredMsg, []) ∧
      pauseV2 raw name rs = (.failure apiKeyRequiredMsg, []) ∧
      resumeV2 raw name rs = (.failure apiKeyRequiredMsg, []) ∧
      sendPromptV2 raw name command re = (.failure apiKeyRequiredMsg, []) ∧
      listV2 raw rl = (.failure apiKeyRequiredMsg, []) ∧
      (∃ t, apiKeyRequiredMsg = "apiKey" ++ t)) ∧
    (jsTruthyStr (loadConfigV3 file).proxyUrl = false →
      sendPromptV3 file name command re = (.failure proxyUrlNotConfiguredMsg, []) ∧
      (∃ t, proxyUrlNotConfiguredMsg = "proxyUrl" ++ t)) := by
  refine ⟨fun hp => ?_, fun hp ha => ?_, fun hp => ?_⟩
  · refine ⟨?_, ?_, ?_, ?_, ?_, ?_, ?_, ?_, ?_, ?_, ?_, ?_, ?_, ?_,
      ⟨" is required in config.json. Please set it to your proxy URL (e.g., http://34.27.37.121)",
        by decide⟩⟩ <;>
      simp [createV2, getStatusV2, deleteV2, pauseV2, resumeV2, sendPromptV2, listV2,
        createV1, getStatusV1, deleteV1, pauseV1, resumeV1, sendPromptV1, listV1,
        loadConfigV2, loadConfigV1, hp]
  · refine ⟨?_, ?_, ?_, ?_, ?_, ?_, ?_,
      ⟨" is required in config.json. Generate one via the admin API: POST /api/admin/users/<userId>/apikeys",
        by decide⟩⟩ <;>
      simp [createV2, getStatusV2, deleteV2, pauseV2, resumeV2, sendPromptV2, listV2,
        loadConfigV2, hp, ha]
  · exact ⟨by simp [sendPromptV3, hp],
      ⟨" not configured. Please set proxyUrl in config.json", by decide⟩⟩

/-- Witness for C6: the empty config fails V2 create naming `proxyUrl`, a
key-less config fails V2 create naming `apiKey`, and the V3 default config
fails `send_prompt_to_sandbox` naming `proxyUrl` — each with an empty
request trace. -/
theorem claim6_witness :
    createV2 cfgNone "s1" none none (.ok ()) statNever =
      (.failure proxyUrlRequiredMsg, []) ∧
    createV2 cfgProxyOnly "s1" none none (.ok ()) statNever =
      (.failure apiKeyRequiredMsg, []) ∧
    sendPromptV3 none "s1" "ls" (.thrown "x") =
      (.failure proxyUrlNotConfiguredMsg, []) :=
  ⟨((claim6_theorem cfgNone none "s1" "ls" none none (.ok ()) statNever
      (.notOk 500 emptyErr) (.thrown "x") (.notOk 500 emptyErr) .ok).1 rfl).1,
   ((claim6_theorem cfgProxyOnly none "s1" "ls" none none (.ok ()) statNever
      (.notOk 500 emptyErr) (.thrown "x") (.notOk 500 emptyErr) .ok).2.1 rfl rfl).1,
   ((claim6_theorem cfgNone none "s1" "ls" none none (.ok ()) statNever
      (.notOk 500 emptyErr) (.thrown "x") (.notOk 500 emptyErr) .ok).2.2 rfl).1⟩

/-- Claim C7: the best-effort post-create settings push never influences
the returned create result: in the remote-sandbox.ts variant the whole
`create_sandbox` output (result and trace) is identical for every outcome
of the push, and likewise in the part_003 variant's create tail. -/
theorem claim7_theorem :
    (∀ (raw : RawConfig) (name : String) (image : Option String) (port : Option Nat)
       (cr : FetchResult Unit) (stat : FetchResult SandboxData) (p q : PushOutcome),
        createV1 raw name image port cr stat p = createV1 raw name image port cr stat q) ∧
    (∀ (proxyUrl : Option String) (name : String) (d : K8sSandbox) (p q : PushOutcome),
        createTailV3 proxyUrl name d p = createTailV3 proxyUrl name d q) :=
  ⟨fun _ _ _ _ _ _ _ _ => rfl, fun _ _ _ _ _ => rfl⟩

/-- Claim C8, counterexample: a transport-successful exec response whose
body has no `data` object is returned as a success payload with the
missing fields coerced to defaults (`output` to the empty string,
`exit_code` to `-1`), not as a `BackendError`; and the part_002 create
payload built from an empty status body coerces `name` to the request
name and `namespace`/`serviceFQDN`/`ready` to `pending`/`pending`/`false`. -/
theorem claim8_counterexample :
    sendPromptCore "s1" "ls" (.ok { success := some true, data := none }) =
      .ok { success := some true, sandbox := "s1", command := "ls",
            output := "", exit_code := -1, session_id := none } ∧
    buildCreateOk "s1" emptyData =
      { message := createdMsg "s1",
        sandbox := { name := "s1", nspace := "pending",
                     serviceFQDN := "pending", ready := false } } :=
  ⟨rfl, rfl⟩

/-- Claim C8, amended: a transport-successful round trip with missing
response fields is never reported as an error — the handlers silently
coerce the missing fields to defaults (exec, in every variant: empty
output and exit code -1; create: the request name, `pending` serviceFQDN
and `false` ready in both proxy variants, while the missing namespace is
coerced to `pending` in part_002 but to the resolved config namespace in
remote-sandbox.ts). -/
theorem claim8_theorem (name command : String) (b : ExecBody) (hb : b.data = none) :
    sendPromptCore name command (.ok b) =
      .ok { success := b.success, sandbox := name, command := command,
            output := "", exit_code := -1, session_id := none } ∧
    (∀ nm : String, buildCreateOk nm emptyData =
      { message := createdMsg nm,
        sandbox := { name := nm, nspace := "pending",
                     serviceFQDN := "pending", ready := false } }) ∧
    (∀ nm ns : String, buildCreateOkV1 nm ns emptyData =
      { message := createdMsg nm,
        sandbox := { name := nm, nspace := ns,
                     serviceFQDN := "pending", ready := false } }) := by
  refine ⟨?_, fun nm => rfl, fun nm ns => rfl⟩
  simp [sendPromptCore, hb, jsOrStr, jsNullish]

/-- Witness for C8 at a body with a `success` field only. -/
theorem claim8_witness :
    sendPromptCore "s2" "pwd" (.ok { success := some false, data := none }) =
      .ok { success := some false, sandbox := "s2", command := "pwd",
            output := "", exit_code := -1, session_id := none } :=
  ( claim8_theorem "s2" "pwd" { success := some false, data := none } rfl).1

/-- Claim C9, counterexample: `create_sandbox` invoked with the empty name
and a valid configuration performs no validation, in the part_002 variant
and in the remote-sandbox.ts variant alike — the creation request is sent
to the backend carrying the empty name, and the call returns the success
shape instead of a validation failure. -/
theorem claim9_counterexample :
    (createV2 cfgFull "" none none (.ok ()) statNever).2.head? =
      some (.createPost "" none 8888) ∧
    (createV2 cfgFull "" none none (.ok ()) statNever).1 =
      .ok (buildCreateOk "" emptyData) ∧
    (createV1 cfgProxyOnly "" none none (.ok ()) (.notOk 500 emptyErr) .ok).2.head? =
      some (.createPost "" none 8888) ∧
    (createV1 cfgProxyOnly "" none none (.ok ()) (.notOk 500 emptyErr) .ok).1 =
      .ok (buildCreateOkV1 "" "default" emptyData) :=
  ⟨rfl, rfl, rfl, rfl⟩

/-- Claim C9, amended: neither proxy-HTTP variant of `create_sandbox`
(remote-sandbox.ts or part_002) validates the name: for any name (empty
included) and any configuration the variant accepts, the first request of
the operation is the creation POST carrying the caller-supplied name
verbatim, with image and port resolved from the request and config
defaults. -/
theorem claim9_theorem (raw : RawConfig) (name : String) (image : Option String)
    (port : Option Nat) (cr : FetchResult Unit) (stat : Nat → FetchResult SandboxData)
    (rs : FetchResult SandboxData) (push : PushOutcome) :
    (loadConfigV2 raw = .ok raw →
      (createV2 raw name image port cr stat).2.head? =
        some (.createPost name (jsTruthyOr image raw.defaultImage)
          (jsNumOr port (jsNumOr raw.defaultPort 8888)))) ∧
    (loadConfigV1 raw = .ok raw →
      (createV1 raw name image port cr rs push).2.head? =
        some (.createPost name (jsTruthyOr image raw.defaultImage)
          (jsNumOr port (jsNumOr raw.defaultPort 8888)))) := by
  constructor
  · intro hcfg
    unfold createV2
    rw [hcfg]
    cases cr <;> rfl
  · intro hcfg
    unfold createV1
    rw [hcfg]
    cases cr with
    | thrown m => rfl
    | notOk st eb => rfl
    | ok u => cases rs <;> rfl

/-- Witness for C9 at the empty name and a concrete config valid for both
proxy variants. -/
theorem claim9_witness :
    (createV2 cfgFull "" none none (.thrown "net down") statNever).2.head? =
      some (.createPost "" (jsTruthyOr none cfgFull.defaultImage)
        (jsNumOr none (jsNumOr cfgFull.defaultPort 8888))) ∧
    (createV1 cfgFull "" none none (.thrown "net down") (.notOk 500 emptyErr) .ok).2.head? =
      some (.createPost "" (jsTruthyOr none cfgFull.defaultImage)
        (jsNumOr none (jsNumOr cfgFull.defaultPort 8888))) :=
  ⟨(claim9_theorem cfgFull "" none none (.thrown "net down") statNever
      (.notOk 500 emptyErr) .ok).1 rfl,
   (claim9_theorem cfgFull "" none none (.thrown "net down") statNever
      (.notOk 500 emptyErr) .ok).2 rfl⟩

/-- Claim C10: the V3 kubectl command string interpolates the
caller-supplied sandbox name (after the configured kubeconfig and
namespace flags) verbatim, with no quoting or escaping, so a name
containing shell metacharacters puts them unescaped into the executed
command string. -/
theorem claim10_theorem :
    (∀ (cfg : RawConfig) (name : String),
        deleteCmdV3 cfg name = kubectlBase cfg ++ ("delete sandbox " ++ name)) ∧
    (∃ nm : String, (';' ∈ nm.data) ∧
      ∀ cfg : RawConfig, ';' ∈ (deleteCmdV3 cfg nm).data) := by
  have hbase : ∀ (cfg : RawConfig) (name : String),
      deleteCmdV3 cfg name = kubectlBase cfg ++ ("delete sandbox " ++ name) := by
    intro cfg name
    simp only [deleteCmdV3, kubectlCmd, kubectlBase, intercalate_delete,
      String.append_assoc]
  refine ⟨hbase, ⟨"x; touch pwned", by decide, fun cfg => ?_⟩⟩
  rw [hbase cfg "x; touch pwned", String.data_append]
  exact List.mem_append_right _ (by decide)
